import Mathlib

/-!
Verification of `generate_tx_for_signing.py`: a script that renders a fixed
table of (network, token, calldata) records into three textual outputs:
JSON files, console snippets and curl command templates.

The embedding models each emitter as a pure function returning the list of
strings passed to `print` and the list of `(filename, content)` pairs written
to disk.  Python dicts preserve insertion order, so the table is a list of
`(network_key, network_data)` pairs in source order.
-/

/-- One entry of a network's `transactions` list: a token symbol and its
pre-computed calldata hex string. -/
structure Tx where
  token : String
  data : String
deriving DecidableEq

/-- One network's data: chain id, display name and its transaction entries. -/
structure Network where
  chainId : Nat
  name : String
  transactions : List Tx
deriving DecidableEq

/-- The constant contract address shared by every emitted transaction. -/
def CONTRACT_ADDRESS : String := "0x8B173c2E4C84b4bdD8c656F3d47Bc4259594Bd48"

/-- Arbitrum One entry of the `TRANSACTIONS` table. -/
def arbitrumNetwork : Network :=
  { chainId := 42161
  , name := "Arbitrum One"
  , transactions :=
      [ { token := "ETH"
        , data := "0xeb0835bf0000000000000000000000000000000000000000000000000000000000000000" }
      , { token := "USDC"
        , data := "0xeb0835bf000000000000000000000000af88d065e77c8cc2239327c5edb3a432268e5831" }
      , { token := "USDT"
        , data := "0xeb0835bf000000000000000000000000fd086bc7cd5c481dcc9c85ebe478a1c0b69fcbb9" } ] }

/-- Base entry of the `TRANSACTIONS` table. -/
def baseNetwork : Network :=
  { chainId := 8453
  , name := "Base"
  , transactions :=
      [ { token := "ETH"
        , data := "0xeb0835bf0000000000000000000000000000000000000000000000000000000000000000" }
      , { token := "USDC"
        , data := "0xeb0835bf000000000000000000000000833589fcd6edb6e08f4c7c32d4f71b54bda02913" }
      , { token := "USDT"
        , data := "0xeb0835bf000000000000000000000000fde4c96c8593536e31f229ea8f37b2ada2699bb2" } ] }

/-- Optimism entry of the `TRANSACTIONS` table. -/
def optimismNetwork : Network :=
  { chainId := 10
  , name := "Optimism"
  , transactions :=
      [ { token := "ETH"
        , data := "0xeb0835bf0000000000000000000000000000000000000000000000000000000000000000" }
      , { token := "USDC"
        , data := "0xeb0835bf0000000000000000000000000b2c639c533813f4aa9d7837caf62653d097ff85" }
      , { token := "USDT"
        , data := "0xeb0835bf00000000000000000000000094b008aa00579c1307b0ef2c499ad98a8ce58e58" } ] }

/-- Polygon entry of the `TRANSACTIONS` table. -/
def polygonNetwork : Network :=
  { chainId := 137
  , name := "Polygon"
  , transactions :=
      [ { token := "ETH"
        , data := "0xeb0835bf0000000000000000000000000000000000000000000000000000000000000000" }
      , { token := "USDC"
        , data := "0xeb0835bf0000000000000000000000002791bca1f2de4661ed88a30c99a7a9449aa84174" }
      , { token := "USDT"
        , data := "0xeb0835bf000000000000000000000000c2132d05d31c914a87c6611c10748aeb04b58e8f" } ] }

/-- The hard-coded transaction table, in source (dict insertion) order. -/
def TRANSACTIONS : List (String × Network) :=
  [ ("arbitrum", arbitrumNetwork)
  , ("base", baseNetwork)
  , ("optimism", optimismNetwork)
  , ("polygon", polygonNetwork) ]

/-- A scalar JSON value as emitted by the script: a string or a number. -/
inductive JVal where
  | str : String → JVal
  | num : Nat → JVal
deriving DecidableEq

/-- Serialization of a scalar value, as Python `json.dump` renders it
(the emitted strings contain no characters that need escaping). -/
def dumpJVal : JVal → String
  | JVal.str s => "\"" ++ s ++ "\""
  | JVal.num n => toString n

/-- Serialization of a flat JSON object with `json.dump(..., indent=2)`:
opening brace, each member on its own line indented two spaces, members
separated by commas, closing brace, no trailing newline. -/
def dumpObj (kvs : List (String × JVal)) : String :=
  "\x7b\n" ++
    String.intercalate ",\n"
      (kvs.map (fun kv => "  \"" ++ kv.1 ++ "\": " ++ dumpJVal kv.2)) ++
    "\n\x7d"

/-- Drop leading JSON whitespace from a character list. -/
def skipWs : List Char → List Char
  | [] => []
  | c :: cs => if c = ' ' || c = '\n' || c = '\t' || c = '\r' then skipWs cs else c :: cs

/-- Read the body of a JSON string up to the closing quote (the emitted
strings contain no escape sequences); returns the body and the rest. -/
def takeUntilQuote : List Char → Option (List Char × List Char)
  | [] => none
  | c :: cs =>
    if c = '"' then some ([], cs)
    else
      match takeUntilQuote cs with
      | some (pre, rest) => some (c :: pre, rest)
      | none => none

/-- Split a character list into its leading decimal digits and the rest. -/
def takeDigits : List Char → List Char × List Char
  | [] => ([], [])
  | c :: cs =>
    if c.isDigit then
      let p := takeDigits cs
      (c :: p.1, p.2)
    else ([], c :: cs)

/-- Decimal digits to a natural number. -/
def digitsToNat (ds : List Char) : Nat :=
  ds.foldl (fun a c => a * 10 + (c.toNat - 48)) 0

/-- Parse one scalar JSON value (string or number). -/
def parseValue (cs : List Char) : Option (JVal × List Char) :=
  match skipWs cs with
  | [] => none
  | c :: cs2 =>
    if c = '"' then
      match takeUntilQuote cs2 with
      | some (pre, rest) => some (JVal.str (String.mk pre), rest)
      | none => none
    else if c.isDigit then
      let p := takeDigits (c :: cs2)
      some (JVal.num (digitsToNat p.1), p.2)
    else none

/-- Parse one `"key": value` member of a JSON object. -/
def parsePair (cs : List Char) : Option ((String × JVal) × List Char) :=
  match skipWs cs with
  | [] => none
  | c :: cs2 =>
    if c = '"' then
      match takeUntilQuote cs2 with
      | some (key, rest) =>
        match skipWs rest with
        | [] => none
        | c2 :: rest2 =>
          if c2 = ':' then
            match parseValue rest2 with
            | some (v, rest3) => some ((String.mk key, v), rest3)
            | none => none
          else none
      | none => none
    else none

/-- Parse a comma-separated sequence of object members; `fuel` bounds the
recursion by the input length. -/
def parseMembers : Nat → List Char → Option (List (String × JVal) × List Char)
  | 0, _ => none
  | fuel + 1, cs =>
    match parsePair cs with
    | none => none
    | some (kv, rest) =>
      match skipWs rest with
      | [] => some ([kv], [])
      | c :: rest2 =>
        if c = ',' then
          match parseMembers fuel rest2 with
          | some (kvs, rest3) => some (kv :: kvs, rest3)
          | none => none
        else some ([kv], c :: rest2)

/-- Parse a complete flat JSON object (the shape the script emits):
`{ "k": v, ... }` with arbitrary whitespace, nothing after the brace. -/
def parseJson (s : String) : Option (List (String × JVal)) :=
  match skipWs s.data with
  | [] => none
  | c :: cs =>
    if c = '\x7b' then
      match skipWs cs with
      | [] => none
      | c2 :: cs2 =>
        if c2 = '\x7d' then
          if (skipWs cs2).isEmpty then some [] else none
        else
          match parseMembers (s.length + 1) (c2 :: cs2) with
          | some (kvs, rest) =>
            match skipWs rest with
            | [] => none
            | c3 :: rest2 =>
              if c3 = '\x7d' && (skipWs rest2).isEmpty then some kvs else none
          | none => none
    else none

/-- The JSON object the file emitter builds for one record
(`transaction = {"to": ..., "value": "0x0", "data": ..., "chainId": ...}`). -/
def transactionFor (nd : Network) (tx : Tx) : List (String × JVal) :=
  [ ("to", JVal.str CONTRACT_ADDRESS)
  , ("value", JVal.str "0x0")
  , ("data", JVal.str tx.data)
  , ("chainId", JVal.num nd.chainId) ]

/-- Python's `str.lower()` on the ASCII token symbols of the table:
characterwise lowercase mapping. -/
def lowerStr (s : String) : String :=
  String.mk (s.data.map Char.toLower)

/-- The output filename for one record:
`f"tx_{network_key}_{tx['token'].lower()}.json"`. -/
def txFilename (network_key : String) (tx : Tx) : String :=
  "tx_" ++ network_key ++ "_" ++ lowerStr tx.token ++ ".json"

/-- Result of running one emitter: the strings passed to `print` and the
`(filename, content)` pairs written to disk, in order. -/
structure EmitResult where
  lines : List String
  files : List (String × String)
deriving DecidableEq

/-- `generate_tx_json`: writes one JSON file per record and prints progress
messages. -/
def generate_tx_json : EmitResult :=
  { lines := TRANSACTIONS.flatMap (fun p =>
      [ "\n" ++ String.mk (List.replicate 50 '=')
      , "🌐 " ++ p.2.name ++ " (Chain ID: " ++ toString p.2.chainId ++ ")"
      , String.mk (List.replicate 50 '=') ] ++
      p.2.transactions.flatMap (fun tx =>
        [ "\n✅ Criado: " ++ txFilename p.1 tx
        , "   Token: " ++ tx.token
        , "   Para usar: Importe este JSON na sua wallet" ]))
  , files := TRANSACTIONS.flatMap (fun p =>
      p.2.transactions.map (fun tx =>
        (txFilename p.1 tx, dumpObj (transactionFor p.2 tx)))) }

/-- The console snippet printed for one record by `generate_copy_paste`
(the loop body uses only the record's token and calldata). -/
def consoleTxLines (tx : Tx) : List String :=
  [ "// Habilitar " ++ tx.token ++ ":"
  , "await ethereum.request(\x7b"
  , "  method: \x27eth_sendTransaction\x27,"
  , "  params: [\x7b"
  , "    from: ethereum.selectedAddress,"
  , "    to: \x27" ++ CONTRACT_ADDRESS ++ "\x27,"
  , "    data: \x27" ++ tx.data ++ "\x27,"
  , "    value: \x270x0\x27"
  , "  \x7d]"
  , "\x7d);"
  , "" ]

/-- `generate_copy_paste`: prints pasteable console snippets; writes no
files. -/
def generate_copy_paste : EmitResult :=
  { lines :=
      [ "\n\n" ++ String.mk (List.replicate 70 '=')
      , "📋 COMANDOS PARA COPIAR E COLAR NO CONSOLE"
      , String.mk (List.replicate 70 '=') ] ++
      TRANSACTIONS.flatMap (fun p =>
        [ "\n// " ++ p.2.name ++ " (Chain ID: " ++ toString p.2.chainId ++ ")"
        , "// Certifique-se de estar na rede correta!\n" ] ++
        p.2.transactions.flatMap consoleTxLines)
  , files := [] }

/-- The curl command printed for one record by `generate_curl_commands`
(the loop body uses only the record's token and calldata). -/
def curlTxLines (tx : Tx) : List String :=
  [ "\n# Habilitar " ++ tx.token ++ ":"
  , "curl -X POST -H \x27Content-Type: application/json\x27 \\"
  , "  -d \x27\x7b"
  , "    \"to\": \"" ++ CONTRACT_ADDRESS ++ "\","
  , "    \"data\": \"" ++ tx.data ++ "\","
  , "    \"value\": \"0x0\""
  , "  \x7d\x27 \\"
  , "  YOUR_WALLET_API_ENDPOINT" ]

/-- `generate_curl_commands`: prints curl command templates; writes no
files. -/
def generate_curl_commands : EmitResult :=
  { lines :=
      [ "\n\n" ++ String.mk (List.replicate 70 '=')
      , "🔧 COMANDOS CURL PARA WALLETS QUE SUPORTAM API"
      , String.mk (List.replicate 70 '=') ] ++
      TRANSACTIONS.flatMap (fun p =>
        [ "\n# " ++ p.2.name ] ++
        p.2.transactions.flatMap curlTxLines)
  , files := [] }

/-- A file system: filenames mapped to contents, in creation order. -/
abbrev FS := List (String × String)

/-- `open(filename, "w")` followed by a full write: silently overwrites an
existing file in place, otherwise appends a new one. -/
def setFile (fs : FS) (fn content : String) : FS :=
  if fs.any (fun p => p.1 == fn) then
    fs.map (fun p => if p.1 == fn then (fn, content) else p)
  else fs ++ [(fn, content)]

/-- Run the file emitter against a file system state: perform its writes in
order. -/
def runEmitter (fs : FS) : FS :=
  generate_tx_json.files.foldl (fun s p => setFile s p.1 p.2) fs

/-- All calldata strings of the table, in order. -/
def allCalldata : List String :=
  TRANSACTIONS.flatMap (fun p => p.2.transactions.map (fun tx => tx.data))

/-- Hex digit test (the table uses lowercase hex; uppercase also accepted). -/
def isHexChar (c : Char) : Bool :=
  c.isDigit || ('a' ≤ c && c ≤ 'f') || ('A' ≤ c && c ≤ 'F')

/-- Substring test on strings. -/
def strContains (hay needle : String) : Bool :=
  (List.range (hay.data.length + 1)).any
    (fun i => needle.data.isPrefixOf (List.drop i hay.data))

/-- The claim that recipient and value are identical across the table and
that calldata is unique per (network key, token symbol) pair: no two
distinct pairs may share a calldata string. -/
def c3Claim : Prop :=
  (∀ p ∈ TRANSACTIONS, ∀ tx ∈ p.2.transactions,
      (transactionFor p.2 tx).lookup "to" = some (JVal.str CONTRACT_ADDRESS) ∧
      (transactionFor p.2 tx).lookup "value" = some (JVal.str "0x0")) ∧
  (∀ p ∈ TRANSACTIONS, ∀ tx ∈ p.2.transactions,
    ∀ q ∈ TRANSACTIONS, ∀ ty ∈ q.2.transactions,
      tx.data = ty.data → p.1 = q.1 ∧ tx.token = ty.token)

set_option maxRecDepth 100000

/-- Claim C1: for network "base" and token "USDC" the file emitter writes
`tx_base_usdc.json`, and its content parsed as JSON is exactly the object
with the expected `to`, `value`, `data` and `chainId` fields. -/
theorem spec_c1_base_usdc_file :
    (generate_tx_json.files.lookup "tx_base_usdc.json").bind parseJson =
      some
        [ ("to", JVal.str "0x8B173c2E4C84b4bdD8c656F3d47Bc4259594Bd48")
        , ("value", JVal.str "0x0")
        , ("data", JVal.str "0xeb0835bf000000000000000000000000833589fcd6edb6e08f4c7c32d4f71b54bda02913")
        , ("chainId", JVal.num 8453) ] := by decide

/-- Claim C2: every file written by the file emitter parses to a JSON object
with exactly the four keys `to`, `value`, `data`, `chainId`, whose values are
the constant contract address, the string "0x0", the record's calldata and
the record's network chain id, in record order. -/
theorem spec_c2_emitted_objects :
    generate_tx_json.files.map (fun p => parseJson p.2) =
      TRANSACTIONS.flatMap (fun p => p.2.transactions.map (fun tx =>
        some
          [ ("to", JVal.str CONTRACT_ADDRESS)
          , ("value", JVal.str "0x0")
          , ("data", JVal.str tx.data)
          , ("chainId", JVal.num p.2.chainId) ])) := by decide

/-- Claim C3, as stated, is false: the ETH calldata is the same string on
all four networks, so two distinct (network, token) pairs — e.g.
("arbitrum", "ETH") and ("base", "ETH") — share one calldata string. -/
theorem spec_c3_counterexample : ¬ c3Claim := by
  unfold c3Claim
  decide

/-- Claim C3 (amended): every record's recipient and value are identical
across the table, and within each single network no two records with
different token symbols share a calldata string; across networks the ETH
calldata repeats. -/
theorem spec_c3_amended :
    (∀ p ∈ TRANSACTIONS, ∀ tx ∈ p.2.transactions,
        (transactionFor p.2 tx).lookup "to" = some (JVal.str CONTRACT_ADDRESS) ∧
        (transactionFor p.2 tx).lookup "value" = some (JVal.str "0x0")) ∧
    (∀ p ∈ TRANSACTIONS, ∀ tx ∈ p.2.transactions, ∀ ty ∈ p.2.transactions,
        tx.data = ty.data → tx.token = ty.token) := by decide

/-- Witness for the amended claim C3 at the concrete record (base, USDC). -/
theorem spec_c3_amended_witness :
    (transactionFor baseNetwork
        ⟨"USDC", "0xeb0835bf000000000000000000000000833589fcd6edb6e08f4c7c32d4f71b54bda02913"⟩).lookup "to" =
      some (JVal.str CONTRACT_ADDRESS) :=
  (spec_c3_amended.1 ("base", baseNetwork) (by decide)
    ⟨"USDC", "0xeb0835bf000000000000000000000000833589fcd6edb6e08f4c7c32d4f71b54bda02913"⟩
    (by decide)).1

/-- Claim C4: the filenames written by the file emitter are, in record
order, exactly `tx_<network_key>_<token_symbol_lowercase>.json`. -/
theorem spec_c4_filenames :
    generate_tx_json.files.map Prod.fst =
      TRANSACTIONS.flatMap (fun p => p.2.transactions.map (fun tx =>
        "tx_" ++ p.1 ++ "_" ++ lowerStr tx.token ++ ".json")) := by decide

/-- Claim C5: running the file emitter a second time over the file system
produced by the first run changes nothing — every emitted file keeps
byte-identical content. -/
theorem spec_c5_idempotent : runEmitter (runEmitter []) = runEmitter [] := by decide

/-- Claim C6: parsing any emitted file's content and re-serializing it with
the same settings (indent 2, key order preserved) gives back the original
bytes. -/
theorem spec_c6_roundtrip :
    generate_tx_json.files.map (fun p => (parseJson p.2).map dumpObj) =
      generate_tx_json.files.map (fun p => some p.2) := by decide

/-- Claim C7: every calldata string in the table is exactly 74 characters:
"0x", the 8-hex-digit selector eb0835bf, then 64 hex digits; hence all
calldata share one length and one selector. -/
theorem spec_c7_calldata_shape :
    ∀ d ∈ allCalldata,
      d.data.length = 74 ∧ d.data.take 10 = "0xeb0835bf".data ∧
        (d.data.drop 2).all isHexChar = true := by decide

/-- Witness for claim C7 at the concrete ETH calldata string. -/
theorem spec_c7_witness :
    ("0xeb0835bf0000000000000000000000000000000000000000000000000000000000000000" : String).data.length = 74 ∧
    ("0xeb0835bf0000000000000000000000000000000000000000000000000000000000000000" : String).data.take 10 = "0xeb0835bf".data ∧
    (("0xeb0835bf0000000000000000000000000000000000000000000000000000000000000000" : String).data.drop 2).all isHexChar = true :=
  spec_c7_calldata_shape
    "0xeb0835bf0000000000000000000000000000000000000000000000000000000000000000"
    (by decide)

/-- Claim C8: the curl emitter writes no files, prints exactly one POST
command and one placeholder endpoint line per record, and for every record
the printed body lines carry the contract address, the record's calldata and
the zero value. -/
theorem spec_c8_curl_commands :
    generate_curl_commands.files = [] ∧
    generate_curl_commands.lines.countP
        (fun l => l == "curl -X POST -H \x27Content-Type: application/json\x27 \\") =
      (TRANSACTIONS.flatMap (fun p => p.2.transactions)).length ∧
    generate_curl_commands.lines.countP (fun l => l == "  YOUR_WALLET_API_ENDPOINT") =
      (TRANSACTIONS.flatMap (fun p => p.2.transactions)).length ∧
    ∀ p ∈ TRANSACTIONS, ∀ tx ∈ p.2.transactions,
      ("    \"to\": \"" ++ CONTRACT_ADDRESS ++ "\",") ∈ generate_curl_commands.lines ∧
      ("    \"data\": \"" ++ tx.data ++ "\",") ∈ generate_curl_commands.lines ∧
      ("    \"value\": \"0x0\"" : String) ∈ generate_curl_commands.lines := by decide

/-- Witness for claim C8 at the concrete record (base, USDC). -/
theorem spec_c8_witness :
    ("    \"data\": \"" ++
        "0xeb0835bf000000000000000000000000833589fcd6edb6e08f4c7c32d4f71b54bda02913" ++
        "\",") ∈ generate_curl_commands.lines :=
  (spec_c8_curl_commands.2.2.2 ("base", baseNetwork) (by decide)
    ⟨"USDC", "0xeb0835bf000000000000000000000000833589fcd6edb6e08f4c7c32d4f71b54bda02913"⟩
    (by decide)).2.1

/-- Claim C9: the 12 filenames generated in one run of the file emitter are
pairwise distinct, so no write of the run overwrites another of the same
run. -/
theorem spec_c9_distinct_filenames :
    (generate_tx_json.files.map Prod.fst).Nodup ∧ generate_tx_json.files.length = 12 := by
  decide

/-- Claim C10: for every record, the decimal chain id never occurs in the
console or curl snippet printed for it (it is not interpolated there), the
snippets carry the record's calldata, and the chain id appears in the
comment header line of the console output. -/
theorem spec_c10_chainid_only_in_comments :
    ∀ p ∈ TRANSACTIONS, ∀ tx ∈ p.2.transactions,
      ((consoleTxLines tx).all (fun l => !strContains l (toString p.2.chainId))) = true ∧
      ((curlTxLines tx).all (fun l => !strContains l (toString p.2.chainId))) = true ∧
      ("    data: \x27" ++ tx.data ++ "\x27,") ∈ consoleTxLines tx ∧
      ("    \"data\": \"" ++ tx.data ++ "\",") ∈ curlTxLines tx ∧
      ("\n// " ++ p.2.name ++ " (Chain ID: " ++ toString p.2.chainId ++ ")")
        ∈ generate_copy_paste.lines := by decide

/-- Witness for claim C10 at the concrete record (base, USDC). -/
theorem spec_c10_witness :
    ("\n// " ++ baseNetwork.name ++ " (Chain ID: " ++ toString baseNetwork.chainId ++ ")")
      ∈ generate_copy_paste.lines :=
  (spec_c10_chainid_only_in_comments ("base", baseNetwork) (by decide)
    ⟨"USDC", "0xeb0835bf000000000000000000000000833589fcd6edb6e08f4c7c32d4f71b54bda02913"⟩
    (by decide)).2.2.2.2
